import Mathlib

/-!
Shallow embedding of the CAN driver / error-handling / OD-storage logic of
this repository:

* `src/stack/neuberger-socketCAN/CO_error.c` — the per-interface fault
  recovery state machine (`CO_CANerror_*` functions), followed in the same
  file by the FreeRTOS `CO_driver.c` (`CO_CANsend`, `CO_CANrxWait`,
  `CO_CANrxBufferInit`).
* `src/unnamed/part_000` and `src/unnamed/part_001` — two revisions of
  `canopen.cpp` with the object-dictionary callbacks
  (`store_parameters_callback`, `restore_default_parameters_callback`,
  `serial_number_callback`).

Machine integers are modelled as `Nat` (all bit masks involved are
non-negative and no arithmetic in the claims overflows the source types);
`timespec` seconds/nanoseconds are `Int` as `time_t` is signed.  Logging is
a no-op and is omitted.  The `system()`/`recv()` transport reset performed
by `CO_CANerrorResetIf` is represented by a boolean "reset performed"
output of each step function.
-/

/-! ## Constants from `<linux/can.h>` and `<linux/can/error.h>` -/

def CAN_EFF_FLAG : Nat := 0x80000000
def CAN_RTR_FLAG : Nat := 0x40000000
def CAN_ERR_FLAG : Nat := 0x20000000
def CAN_SFF_MASK : Nat := 0x000007FF
def CAN_ERR_CRTL : Nat := 0x00000004
def CAN_ERR_ACK : Nat := 0x00000020
def CAN_ERR_BUSOFF : Nat := 0x00000040

/-! ## Data model of `CO_error.h` / `CO_driver.h` -/

/-- `CO_CANinterfaceState_t`. -/
inductive CO_CANinterfaceState where
  | active
  | listenOnly
  | busOff
deriving DecidableEq, Repr

/-- `struct timespec` (only the fields the code touches). -/
structure Timespec where
  tv_sec : Int
  tv_nsec : Int
deriving DecidableEq, Repr

/-- `CO_CANinterfaceErrorhandler_t`: the per-interface fault state.
The `fd`/`ifName` fields only feed the transport reset and logging and are
omitted. -/
structure CO_CANinterfaceErrorhandler where
  listenOnly : Bool
  noackCounter : Nat
  timestamp : Timespec
deriving DecidableEq, Repr

/-- `struct can_frame` (identifier word and DLC byte; `data[1]` is only
read by the purely-logging `CO_CANerrorCrtl` and is omitted). -/
structure can_frame where
  can_id : Nat
  can_dlc : Nat
deriving DecidableEq, Repr

/-! ## `CO_error.c`: fault recovery state machine

Each function returns the updated handler, the `CO_CANinterfaceState_t`
result, and whether the transport reset (`CO_CANerrorResetIf`'s
link-down/up cycle) was performed during the call. -/

/-- `CO_CANerrorResetIf`: record the transition timestamp, enter listen
only, command the transport reset, return `CO_INTERFACE_LISTEN_ONLY`. -/
def CO_CANerrorResetIf (now : Timespec) (h : CO_CANinterfaceErrorhandler) :
    CO_CANinterfaceErrorhandler × CO_CANinterfaceState :=
  ({ h with timestamp := now, listenOnly := true }, .listenOnly)

/-- `CO_CANerrorClearListenOnly`. -/
def CO_CANerrorClearListenOnly (h : CO_CANinterfaceErrorhandler) :
    CO_CANinterfaceErrorhandler :=
  { h with listenOnly := false, timestamp := ⟨0, 0⟩ }

/-- `CO_CANerrorBusoff`: on a frame with `CAN_ERR_BUSOFF` set, reset the
interface; otherwise report `CO_INTERFACE_ACTIVE`. -/
def CO_CANerrorBusoff (now : Timespec) (h : CO_CANinterfaceErrorhandler)
    (msg : can_frame) :
    CO_CANinterfaceErrorhandler × CO_CANinterfaceState × Bool :=
  if msg.can_id &&& CAN_ERR_BUSOFF ≠ 0 then
    let (h', r) := CO_CANerrorResetIf now h
    (h', r, true)
  else
    (h, .active, false)

/-- `CO_CANerrorCrtl`: all branches on `CAN_ERR_CRTL` / `data[1]` only log;
the handler state and the `CO_INTERFACE_ACTIVE` result are unchanged. -/
def CO_CANerrorCrtl (h : CO_CANinterfaceErrorhandler) (_msg : can_frame) :
    CO_CANinterfaceErrorhandler × CO_CANinterfaceState :=
  (h, .active)

/-- `CO_CANerrorNoack`: count consecutive no-ACK error frames; above the
threshold 10 reset the interface and restart the counter; any error frame
without `CAN_ERR_ACK` clears the counter. -/
def CO_CANerrorNoack (now : Timespec) (h : CO_CANinterfaceErrorhandler)
    (msg : can_frame) :
    CO_CANinterfaceErrorhandler × CO_CANinterfaceState × Bool :=
  if msg.can_id &&& CAN_ERR_ACK ≠ 0 then
    let h1 := { h with noackCounter := h.noackCounter + 1 }
    if h1.noackCounter > 10 then
      let (h2, r) := CO_CANerrorResetIf now h1
      ({ h2 with noackCounter := 0 }, r, true)
    else
      (h1, .active, false)
  else
    ({ h with noackCounter := 0 }, .active, false)

/-- `CO_CANerror_rxMsg`: a successfully received data frame leaves listen
only immediately. -/
def CO_CANerror_rxMsg (h : CO_CANinterfaceErrorhandler) :
    CO_CANinterfaceErrorhandler :=
  if h.listenOnly = true then CO_CANerrorClearListenOnly h else h

/-- `CO_CANerror_txMsg`: gate a send attempt; in listen only the send is
re-allowed once `timestamp.tv_sec + 5 < now.tv_sec`. -/
def CO_CANerror_txMsg (now : Timespec) (h : CO_CANinterfaceErrorhandler) :
    CO_CANinterfaceErrorhandler × CO_CANinterfaceState :=
  if h.listenOnly = true then
    if h.timestamp.tv_sec + 5 < now.tv_sec then
      (CO_CANerrorClearListenOnly h, .active)
    else
      (h, .listenOnly)
  else
    (h, .active)

/-- `CO_CANerror_rxMsgError` (non-NULL handler): process an error frame,
most unambiguous error first, returning at the first non-active result. -/
def CO_CANerror_rxMsgError (now : Timespec)
    (h : CO_CANinterfaceErrorhandler) (msg : can_frame) :
    CO_CANinterfaceErrorhandler × CO_CANinterfaceState × Bool :=
  let (h1, r1, d1) := CO_CANerrorBusoff now h msg
  if r1 ≠ .active then (h1, r1, d1)
  else
    let (h2, r2) := CO_CANerrorCrtl h1 msg
    if r2 ≠ .active then (h2, r2, d1)
    else CO_CANerrorNoack now h2 msg

/-- Feed a sequence of error frames through `CO_CANerror_rxMsgError`,
counting how many transport resets (listen-only transitions) occur. -/
def CO_CANerror_runErrors (now : Timespec)
    (h : CO_CANinterfaceErrorhandler) :
    List can_frame → CO_CANinterfaceErrorhandler × Nat
  | [] => (h, 0)
  | msg :: rest =>
    let (h1, _, d) := CO_CANerror_rxMsgError now h msg
    let (h2, n) := CO_CANerror_runErrors now h1 rest
    (h2, (if d then 1 else 0) + n)

/-! ## FreeRTOS `CO_driver.c`: receive dispatch and send

The second document in `src/stack/neuberger-socketCAN/CO_error.c` is the
FreeRTOS `CO_driver.c`.  `CO_CANrxWait` (after a successful `can_poll` /
`can_read`) classifies the received frame and dispatches it over the
receive descriptor array; `CO_CANsend` hands the buffer to `can_write`. -/

/-- `CO_ReturnError_t` (the members this development needs). -/
inductive CO_ReturnError where
  | no
  | illegalArgument
  | timeout
  | rxOverflow
  | txOverflow
  | txBusy
deriving DecidableEq, Repr

/-- `CO_CANrx_t`: a receive descriptor.  The opaque `object`/`pFunct`
binding is represented by whether `pFunct` is non-NULL. -/
structure CO_CANrx where
  ident : Nat
  mask : Nat
  hasFunct : Bool
deriving DecidableEq, Repr

/-- `CO_CANrxBufferInit`'s configuration of a descriptor (the success
path, `index < rxSize` and non-NULL arguments): the identifier is reduced
to 11 bits (plus the RTR flag when requested) and the mask always keeps
the `CAN_EFF_FLAG` and `CAN_RTR_FLAG` bits. -/
def CO_CANrxBufferInit (ident mask : Nat) (rtr : Bool) : CO_CANrx :=
  { ident := (ident &&& CAN_SFF_MASK) ||| (if rtr then CAN_RTR_FLAG else 0),
    mask := (mask &&& CAN_SFF_MASK) ||| CAN_EFF_FLAG ||| CAN_RTR_FLAG,
    hasFunct := true }

/-- Mask-compare match of `CO_CANrxWait`:
`((rx_id ^ buffer->ident) & buffer->mask) == 0`. -/
def rxMatch (rx_id : Nat) (b : CO_CANrx) : Bool :=
  (rx_id ^^^ b.ident) &&& b.mask == 0

/-- The linear scan of `CO_CANrxWait` over `rxArray` from index 0,
breaking at the first descriptor whose mask-compare matches. -/
def rxScan (rx_id : Nat) : List CO_CANrx → Option Nat
  | [] => none
  | b :: bs =>
    if rxMatch rx_id b then some 0
    else (rxScan rx_id bs).map (· + 1)

/-- The frame-processing tail of `CO_CANrxWait` (entered after `can_poll`
and `can_read` both succeeded, `useCANrxFilters` being `false` as set by
`CO_CANmodule_init`).  Returns the function result together with the index
of the receive descriptor whose handler was invoked, if any.  Note the
extended-frame test is on `can_dlc`, exactly as in the source. -/
def CO_CANrxWait (rxArray : List CO_CANrx) (frame : can_frame) :
    CO_ReturnError × Option Nat :=
  if frame.can_dlc &&& CAN_EFF_FLAG ≠ 0 then
    (.no, none)
  else if frame.can_id &&& CAN_ERR_FLAG ≠ 0 then
    (.no, none)
  else
    let rx_id := frame.can_id &&& CAN_SFF_MASK
    match rxScan rx_id rxArray with
    | some i =>
      if (rxArray.getD i ⟨0, 0, false⟩).hasFunct then (.no, some i)
      else (.no, none)
    | none => (.no, none)

/-- `CO_CANsend` of the FreeRTOS driver (non-NULL module and buffer):
`can_write` failure reports `CO_ERROR_TX_OVERFLOW`, success reports
`CO_ERROR_NO`.  `canWriteOk` stands for `can_write(...) == CAN_OK`. -/
def CO_CANsend (canWriteOk : Bool) : CO_ReturnError :=
  if canWriteOk then .no else .txOverflow

/-- Modelled from the spec: the socketCAN `CO_driver.c` (not under `src/`;
only its error module `CO_error.c` is) routes each send request through
`CO_CANerror_txMsg` and reports a busy outcome when the interface is not
active, while an allowed send behaves as the in-source `CO_CANsend`:
overflow when the transport queue is saturated, success otherwise. -/
def CO_CANsend_socketCAN (now : Timespec)
    (h : CO_CANinterfaceErrorhandler) (queueSaturated : Bool) :
    CO_CANinterfaceErrorhandler × CO_ReturnError :=
  let (h', ifState) := CO_CANerror_txMsg now h
  if ifState ≠ .active then (h', .txBusy)
  else (h', CO_CANsend (!queueSaturated))

/-! ## `canopen.cpp` object-dictionary callbacks

`src/unnamed/part_000` and `src/unnamed/part_001` are two revisions of the
same `canopen.cpp`; the callbacks differ slightly, so both revisions are
embedded (`V0` suffix for `part_000`, `V1` for `part_001`).

A callback invocation is modelled by the written 32-bit word
(`p_odf_arg->data`, which for index 0x1010/0x1011 carries the signature),
the stored word `*p_odf_arg->ODdataStorage`, the subindex and the
direction.  `storage.save`/`storage.restore` calls are recorded in an
output list, with an environment `saveOk` telling which saves succeed. -/

/-- `CO_SDO_abortCode_t` (the members this development needs). -/
inductive CO_SDO_abortCode where
  | none
  | dataTransf
  | invalidValue
  | subUnknown
  | hw
  | readonly
deriving DecidableEq, Repr

/-- `Canopen_storage::storage_type_t`. -/
inductive Canopen_storage where
  | PARAMS
  | TEST
  | CALIB
  | SERIAL
  | COMMUNICATION
  | RUNTIME
deriving DecidableEq, Repr

/-- The object-dictionary fields touched by the embedded callbacks:
`OD_serialNumber.valid`, `OD_serialNumber.serial`,
`OD_identity.serialNumber`. -/
structure ODState where
  serialValid : Bool
  serialNumberSerial : Nat
  identitySerialNumber : Nat
deriving DecidableEq, Repr

/-- Result of one callback invocation: the abort code, the content of the
write target (`p_odf_arg->data`) when the callback returns, the sequence
of `storage.save` calls performed, the `storage.restore` calls performed,
and the object-dictionary state afterwards. -/
structure CallbackResult where
  abort : CO_SDO_abortCode
  data : Nat
  saves : List Canopen_storage
  restores : List Canopen_storage
  od : ODState
deriving DecidableEq, Repr

/-- `storage.save(type)` followed by the `CO_SDO_AB_HW` check. -/
def storeSaveStep (saveOk : Canopen_storage → Bool)
    (ty : Canopen_storage) (data : Nat) (acc : List Canopen_storage)
    (od : ODState) : CallbackResult :=
  if saveOk ty then ⟨.none, data, acc ++ [ty], [], od⟩
  else ⟨.hw, data, acc ++ [ty], [], od⟩

/-- `Canopen::store_parameters_callback` of `src/unnamed/part_000`
(OD entry 0x1010). -/
def store_parameters_callbackV0 (saveOk : Canopen_storage → Bool)
    (od : ODState) (reading : Bool) (subIndex : Nat)
    (data storedData : Nat) : CallbackResult :=
  if reading = true then ⟨.none, data, [], [], od⟩
  else
    let signature := data
    let data := storedData
    if subIndex = 2 ∨ subIndex = 4 then ⟨.dataTransf, data, [], [], od⟩
    else if signature ≠ 0x65766173 then ⟨.dataTransf, data, [], [], od⟩
    else if subIndex = 1 then
      if !saveOk .PARAMS then ⟨.hw, data, [.PARAMS], [], od⟩
      else if !saveOk .TEST then ⟨.hw, data, [.PARAMS, .TEST], [], od⟩
      else if !saveOk .CALIB then
        ⟨.hw, data, [.PARAMS, .TEST, .CALIB], [], od⟩
      else ⟨.none, data, [.PARAMS, .TEST, .CALIB], [], od⟩
    else if subIndex = 3 then storeSaveStep saveOk .PARAMS data [] od
    else if subIndex = 5 then
      if od.serialValid ≠ false then ⟨.dataTransf, data, [], [], od⟩
      else
        let od' := { od with
          serialValid := true,
          identitySerialNumber := od.serialNumberSerial % 100000000 }
        storeSaveStep saveOk .SERIAL data [] od'
    else if subIndex = 6 then storeSaveStep saveOk .TEST data [] od
    else if subIndex = 7 then storeSaveStep saveOk .CALIB data [] od
    else ⟨.subUnknown, data, [], [], od⟩

/-- `Canopen::store_parameters_callback` of `src/unnamed/part_001`
(OD entry 0x1010).  Differences to `part_000`: subindex 0 is accepted
outright, subindexes 2/4 and an already-valid serial number abort with
`CO_SDO_AB_INVALID_VALUE`, and subindex 5 does not set
`OD_serialNumber.valid`. -/
def store_parameters_callbackV1 (saveOk : Canopen_storage → Bool)
    (od : ODState) (reading : Bool) (subIndex : Nat)
    (data storedData : Nat) : CallbackResult :=
  if reading = true then ⟨.none, data, [], [], od⟩
  else
    let signature := data
    let data := storedData
    if subIndex = 0 then ⟨.none, data, [], [], od⟩
    else if subIndex = 2 ∨ subIndex = 4 then ⟨.invalidValue, data, [], [], od⟩
    else if signature ≠ 0x65766173 then ⟨.dataTransf, data, [], [], od⟩
    else if subIndex = 1 then
      if !saveOk .PARAMS then ⟨.hw, data, [.PARAMS], [], od⟩
      else if !saveOk .TEST then ⟨.hw, data, [.PARAMS, .TEST], [], od⟩
      else if !saveOk .CALIB then
        ⟨.hw, data, [.PARAMS, .TEST, .CALIB], [], od⟩
      else ⟨.none, data, [.PARAMS, .TEST, .CALIB], [], od⟩
    else if subIndex = 3 then storeSaveStep saveOk .PARAMS data [] od
    else if subIndex = 5 then
      if od.serialValid = true then ⟨.invalidValue, data, [], [], od⟩
      else storeSaveStep saveOk .SERIAL data [] od
    else if subIndex = 6 then storeSaveStep saveOk .TEST data [] od
    else if subIndex = 7 then storeSaveStep saveOk .CALIB data [] od
    else ⟨.subUnknown, data, [], [], od⟩

/-- `Canopen::restore_default_parameters_callback` of
`src/unnamed/part_000` (OD entry 0x1011). -/
def restore_default_parameters_callbackV0 (od : ODState) (reading : Bool)
    (subIndex : Nat) (data storedData : Nat) : CallbackResult :=
  if reading = true then ⟨.none, data, [], [], od⟩
  else
    let signature := data
    let data := storedData
    if subIndex = 1 ∨ subIndex = 3 then
      if signature ≠ 0x64616F6C then ⟨.dataTransf, data, [], [], od⟩
      else ⟨.none, data, [], [.PARAMS], od⟩
    else if subIndex = 2 ∨ subIndex = 4 ∨ subIndex = 5 ∨ subIndex = 6 ∨
        subIndex = 7 then
      ⟨.dataTransf, data, [], [], od⟩
    else ⟨.subUnknown, data, [], [], od⟩

/-- `Canopen::restore_default_parameters_callback` of
`src/unnamed/part_001` (OD entry 0x1011). -/
def restore_default_parameters_callbackV1 (od : ODState) (reading : Bool)
    (subIndex : Nat) (data storedData : Nat) : CallbackResult :=
  if reading = true then ⟨.none, data, [], [], od⟩
  else
    let signature := data
    let data := storedData
    if subIndex = 0 then ⟨.none, data, [], [], od⟩
    else if subIndex = 1 ∨ subIndex = 3 then
      if signature ≠ 0x64616F6C then ⟨.dataTransf, data, [], [], od⟩
      else ⟨.none, data, [], [.PARAMS], od⟩
    else if subIndex = 2 ∨ subIndex = 4 ∨ subIndex = 5 ∨ subIndex = 6 ∨
        subIndex = 7 then
      ⟨.invalidValue, data, [], [], od⟩
    else ⟨.subUnknown, data, [], [], od⟩

/-- `Canopen::serial_number_callback` of `src/unnamed/part_000`
(OD entry 0x5000): once `OD_serialNumber.valid` is true, a write to
subindex 2 is answered by copying the stored bytes back over the received
value and `CO_SDO_AB_READONLY`. -/
def serial_number_callbackV0 (od : ODState) (reading : Bool)
    (subIndex : Nat) (data storedData : Nat) : CallbackResult :=
  if reading = true then ⟨.none, data, [], [], od⟩
  else if subIndex = 2 then
    if od.serialValid = true then ⟨.readonly, storedData, [], [], od⟩
    else ⟨.none, data, [], [], od⟩
  else ⟨.subUnknown, data, [], [], od⟩

/-! ## Helper lemmas -/

/-- A step of `CO_CANerror_rxMsgError` on a pure no-ACK error frame
(`CAN_ERR_ACK` set, `CAN_ERR_BUSOFF` clear). -/
theorem rxMsgError_noack_step (now : Timespec)
    (h : CO_CANinterfaceErrorhandler) (msg : can_frame)
    (hack : msg.can_id &&& CAN_ERR_ACK ≠ 0)
    (hbus : msg.can_id &&& CAN_ERR_BUSOFF = 0) :
    CO_CANerror_rxMsgError now h msg =
      if h.noackCounter + 1 > 10 then (⟨true, 0, now⟩, .listenOnly, true)
      else ({ h with noackCounter := h.noackCounter + 1 }, .active, false) := by
  by_cases hgt : h.noackCounter + 1 > 10
  · simp [CO_CANerror_rxMsgError, CO_CANerrorBusoff, CO_CANerrorCrtl,
      CO_CANerrorNoack, CO_CANerrorResetIf, hbus, hack, hgt]
  · simp [CO_CANerror_rxMsgError, CO_CANerrorBusoff, CO_CANerrorCrtl,
      CO_CANerrorNoack, CO_CANerrorResetIf, hbus, hack, hgt]

/-- Running `CO_CANerror_rxMsgError` over pure no-ACK error frames while
the counter stays at or below the threshold: no reset happens and the
counter advances by the number of frames. -/
theorem runErrors_noack_low (now : Timespec) :
    ∀ (msgs : List can_frame) (h : CO_CANinterfaceErrorhandler),
    (∀ m ∈ msgs, m.can_id &&& CAN_ERR_ACK ≠ 0 ∧
      m.can_id &&& CAN_ERR_BUSOFF = 0) →
    h.noackCounter + msgs.length ≤ 10 →
    CO_CANerror_runErrors now h msgs =
      ({ h with noackCounter := h.noackCounter + msgs.length }, 0) := by
  intro msgs
  induction msgs with
  | nil => intro h _ _; simp [CO_CANerror_runErrors]
  | cons m rest ih =>
    intro h hall hle
    have hm := hall m (List.mem_cons_self m rest)
    have hstep := rxMsgError_noack_step now h m hm.1 hm.2
    have hlow : ¬ h.noackCounter + 1 > 10 := by
      simp only [List.length_cons] at hle; omega
    rw [if_neg hlow] at hstep
    have hrest := ih { h with noackCounter := h.noackCounter + 1 }
      (fun m' hm' => hall m' (List.mem_cons_of_mem m hm'))
      (by simp only [List.length_cons] at hle; simpa using by omega)
    simp [CO_CANerror_runErrors, hstep, hrest]
    all_goals omega

/-- `CO_CANerror_runErrors` splits over list append. -/
theorem runErrors_append (now : Timespec)
    (h : CO_CANinterfaceErrorhandler) (l1 l2 : List can_frame) :
    CO_CANerror_runErrors now h (l1 ++ l2) =
      ((CO_CANerror_runErrors now
          (CO_CANerror_runErrors now h l1).1 l2).1,
        (CO_CANerror_runErrors now h l1).2 +
          (CO_CANerror_runErrors now
            (CO_CANerror_runErrors now h l1).1 l2).2) := by
  induction l1 generalizing h with
  | nil => simp [CO_CANerror_runErrors]
  | cons m rest ih =>
    simp only [List.cons_append, CO_CANerror_runErrors, List.append_eq]
    rw [ih]
    simp [Nat.add_assoc]

/-! ## Claims about the fault-recovery state machine -/

/-- C1: in Active mode, one bus-off error frame performs the transport
reset and moves the handler to ListenOnly in that single
`CO_CANerror_rxMsgError` step; from ListenOnly, a successfully received
data frame (`CO_CANerror_rxMsg`) clears listen only, returning the handler
to Active. -/
theorem c1_busoff_one_step_and_rx_recovers (now : Timespec)
    (h h' : CO_CANinterfaceErrorhandler) (msg : can_frame)
    (_hAct : h.listenOnly = false)
    (hBus : msg.can_id &&& CAN_ERR_BUSOFF ≠ 0)
    (hLO : h'.listenOnly = true) :
    CO_CANerror_rxMsgError now h msg =
      ({ h with listenOnly := true, timestamp := now }, .listenOnly, true) ∧
    CO_CANerror_rxMsg h' =
      { h' with listenOnly := false, timestamp := ⟨0, 0⟩ } := by
  constructor
  · simp [CO_CANerror_rxMsgError, CO_CANerrorBusoff, CO_CANerrorResetIf,
      hBus]
  · simp [CO_CANerror_rxMsg, CO_CANerrorClearListenOnly, hLO]

theorem c1_busoff_one_step_and_rx_recovers_witness :
    CO_CANerror_rxMsgError ⟨40, 0⟩ ⟨false, 3, ⟨0, 0⟩⟩ ⟨0x20000040, 0⟩ =
      (⟨true, 3, ⟨40, 0⟩⟩, .listenOnly, true) ∧
    CO_CANerror_rxMsg ⟨true, 3, ⟨40, 0⟩⟩ = ⟨false, 3, ⟨0, 0⟩⟩ :=
  c1_busoff_one_step_and_rx_recovers ⟨40, 0⟩ ⟨false, 3, ⟨0, 0⟩⟩
    ⟨true, 3, ⟨40, 0⟩⟩ ⟨0x20000040, 0⟩ rfl (by decide) rfl

/-- C2: from `noackCounter = 0` and listen-only clear, a stream of 11
consecutive no-ACK error frames triggers exactly one reset / ListenOnly
transition, and it happens on the 11th frame (the first 10 trigger
none). -/
theorem c2_eleven_noack_frames_one_reset (now : Timespec)
    (h0 : CO_CANinterfaceErrorhandler) (msgs : List can_frame)
    (hcnt : h0.noackCounter = 0) (_hlo : h0.listenOnly = false)
    (hlen : msgs.length = 11)
    (hall : ∀ m ∈ msgs, m.can_id &&& CAN_ERR_ACK ≠ 0 ∧
      m.can_id &&& CAN_ERR_BUSOFF = 0) :
    (CO_CANerror_runErrors now h0 msgs).2 = 1 ∧
    (CO_CANerror_runErrors now h0 (msgs.take 10)).2 = 0 ∧
    (CO_CANerror_runErrors now h0 msgs).1 = ⟨true, 0, now⟩ := by
  have hsplit : msgs = msgs.take 10 ++ msgs.drop 10 :=
    (List.take_append_drop 10 msgs).symm
  have hlen10 : (msgs.take 10).length = 10 := by
    simp [List.length_take, hlen]
  have hall10 : ∀ m ∈ msgs.take 10, m.can_id &&& CAN_ERR_ACK ≠ 0 ∧
      m.can_id &&& CAN_ERR_BUSOFF = 0 :=
    fun m hm => hall m (List.mem_of_mem_take hm)
  have h10 := runErrors_noack_low now (msgs.take 10) h0 hall10
    (by omega)
  rw [hcnt, hlen10] at h10
  simp only [Nat.zero_add] at h10
  have hdlen : (msgs.drop 10).length = 1 := by
    simp [List.length_drop, hlen]
  obtain ⟨m, hm⟩ := List.length_eq_one.mp hdlen
  have hmmem : m ∈ msgs := by
    have : m ∈ msgs.drop 10 := by simp [hm]
    exact List.mem_of_mem_drop this
  have hmprops := hall m hmmem
  have hstep := rxMsgError_noack_step now
    { h0 with noackCounter := 10 } m hmprops.1 hmprops.2
  rw [if_pos (by norm_num)] at hstep
  refine ⟨?_, ?_, ?_⟩
  · conv_lhs => rw [hsplit]
    rw [runErrors_append, h10, hm]
    simp [CO_CANerror_runErrors, hstep]
  · rw [h10]
  · conv_lhs => rw [hsplit]
    rw [runErrors_append, h10, hm]
    simp [CO_CANerror_runErrors, hstep]

theorem c2_eleven_noack_frames_one_reset_witness :
    (CO_CANerror_runErrors ⟨7, 0⟩ ⟨false, 0, ⟨0, 0⟩⟩
        (List.replicate 11 ⟨0x20000020, 0⟩)).2 = 1 ∧
    (CO_CANerror_runErrors ⟨7, 0⟩ ⟨false, 0, ⟨0, 0⟩⟩
        ((List.replicate 11 ⟨0x20000020, 0⟩).take 10)).2 = 0 ∧
    (CO_CANerror_runErrors ⟨7, 0⟩ ⟨false, 0, ⟨0, 0⟩⟩
        (List.replicate 11 ⟨0x20000020, 0⟩)).1 = ⟨true, 0, ⟨7, 0⟩⟩ :=
  c2_eleven_noack_frames_one_reset ⟨7, 0⟩ ⟨false, 0, ⟨0, 0⟩⟩
    (List.replicate 11 ⟨0x20000020, 0⟩) rfl rfl (by decide)
    (fun m hm => by
      have := List.eq_of_mem_replicate hm
      subst this
      exact ⟨by decide, by decide⟩)

/-- C3 counterexample: a successfully received data frame
(`CO_CANerror_rxMsg`) does not clear the consecutive no-ACK counter: with
the counter at 5 it stays at 5. -/
theorem c3_rxMsg_keeps_counter_counterexample :
    ¬ (CO_CANerror_rxMsg ⟨true, 5, ⟨0, 0⟩⟩).noackCounter = 0 := by
  decide

/-- C3 amended: an error frame without the no-ACK flag clears the counter
to zero provided its bus-off flag is also clear; a successfully received
data frame (`CO_CANerror_rxMsg`) and a bus-off error frame leave the
counter unchanged. -/
theorem c3_counter_clearing_amended (now : Timespec)
    (h : CO_CANinterfaceErrorhandler) (msg : can_frame) :
    (msg.can_id &&& CAN_ERR_ACK = 0 → msg.can_id &&& CAN_ERR_BUSOFF = 0 →
      (CO_CANerror_rxMsgError now h msg).1.noackCounter = 0) ∧
    (CO_CANerror_rxMsg h).noackCounter = h.noackCounter ∧
    (msg.can_id &&& CAN_ERR_BUSOFF ≠ 0 →
      (CO_CANerror_rxMsgError now h msg).1.noackCounter = h.noackCounter) := by
  refine ⟨?_, ?_, ?_⟩
  · intro hack hbus
    simp [CO_CANerror_rxMsgError, CO_CANerrorBusoff, CO_CANerrorCrtl,
      CO_CANerrorNoack, hack, hbus]
  · by_cases hlo : h.listenOnly = true <;>
      simp [CO_CANerror_rxMsg, CO_CANerrorClearListenOnly, hlo]
  · intro hbus
    simp [CO_CANerror_rxMsgError, CO_CANerrorBusoff, CO_CANerrorResetIf,
      hbus]

theorem c3_counter_clearing_amended_witness :
    (CO_CANerror_rxMsgError ⟨9, 0⟩ ⟨false, 7, ⟨0, 0⟩⟩
        ⟨0x20000004, 0⟩).1.noackCounter = 0 ∧
    (CO_CANerror_rxMsgError ⟨9, 0⟩ ⟨false, 7, ⟨0, 0⟩⟩
        ⟨0x20000040, 0⟩).1.noackCounter = 7 :=
  ⟨(c3_counter_clearing_amended ⟨9, 0⟩ ⟨false, 7, ⟨0, 0⟩⟩
      ⟨0x20000004, 0⟩).1 (by decide) (by decide),
    (c3_counter_clearing_amended ⟨9, 0⟩ ⟨false, 7, ⟨0, 0⟩⟩
      ⟨0x20000040, 0⟩).2.2 (by decide)⟩

/-- C4: a transmit attempt (`CO_CANerror_txMsg`) in listen only clears
listen only and reports Active once more than the 5 second dwell time has
passed since the recorded transition timestamp; before that it reports
ListenOnly and changes nothing. -/
theorem c4_txMsg_dwell_time (now : Timespec)
    (h : CO_CANinterfaceErrorhandler) (hlo : h.listenOnly = true) :
    (h.timestamp.tv_sec + 5 < now.tv_sec →
      CO_CANerror_txMsg now h =
        ({ h with listenOnly := false, timestamp := ⟨0, 0⟩ }, .active)) ∧
    (¬ h.timestamp.tv_sec + 5 < now.tv_sec →
      CO_CANerror_txMsg now h = (h, .listenOnly)) := by
  constructor
  · intro hdwell
    simp [CO_CANerror_txMsg, CO_CANerrorClearListenOnly, hlo, hdwell]
  · intro hdwell
    simp [CO_CANerror_txMsg, hlo, hdwell]

theorem c4_txMsg_dwell_time_witness :
    CO_CANerror_txMsg ⟨16, 0⟩ ⟨true, 0, ⟨10, 0⟩⟩ =
      (⟨false, 0, ⟨0, 0⟩⟩, .active) ∧
    CO_CANerror_txMsg ⟨15, 0⟩ ⟨true, 0, ⟨10, 0⟩⟩ =
      (⟨true, 0, ⟨10, 0⟩⟩, .listenOnly) :=
  ⟨(c4_txMsg_dwell_time ⟨16, 0⟩ ⟨true, 0, ⟨10, 0⟩⟩ rfl).1 (by decide),
    (c4_txMsg_dwell_time ⟨15, 0⟩ ⟨true, 0, ⟨10, 0⟩⟩ rfl).2 (by decide)⟩

/-! ## Claims about the receive dispatch -/

/-- A byte-valued field has bit 31 clear, so masking it with
`CAN_EFF_FLAG` gives zero (this is why the `can_dlc` test in
`CO_CANrxWait` can never fire). -/
theorem byte_and_eff_flag (a : Nat) (ha : a < 256) :
    a &&& CAN_EFF_FLAG = 0 := by
  have h1 : a &&& CAN_EFF_FLAG ≤ a := Nat.and_le_left
  have h2 : a &&& CAN_EFF_FLAG = 0 ∨ a &&& CAN_EFF_FLAG = CAN_EFF_FLAG := by
    have := Nat.and_two_pow a 31
    rcases Bool.eq_false_or_eq_true (a.testBit 31) with hb | hb <;>
      simp [CAN_EFF_FLAG, hb] at this ⊢ <;> omega
  rcases h2 with h | h
  · exact h
  · rw [h] at h1
    simp [CAN_EFF_FLAG] at h1
    omega

/-- C5 (code bug): the extended-identifier drop in `CO_CANrxWait` tests
`can_dlc` instead of `can_id`, so a frame with `CAN_EFF_FLAG` set in its
identifier is not dropped; its identifier is truncated to 11 bits and a
matching descriptor's handler is invoked. -/
theorem c5_extended_frame_not_dropped :
    (0x80000181 &&& CAN_EFF_FLAG ≠ 0) ∧
    CO_CANrxWait [CO_CANrxBufferInit 0x181 0x7FF false] ⟨0x80000181, 8⟩ =
      (.no, some 0) := by
  decide

/-- The linear scan returns the first matching index: any match at `i`
implies the scan stops at some `k ≤ i` that matches. -/
theorem rxScan_first_match (rx_id : Nat) :
    ∀ (bufs : List CO_CANrx) (i : Nat), i < bufs.length →
    rxMatch rx_id (bufs.getD i ⟨0, 0, false⟩) = true →
    ∃ k, k ≤ i ∧ rxScan rx_id bufs = some k ∧
      rxMatch rx_id (bufs.getD k ⟨0, 0, false⟩) = true := by
  intro bufs
  induction bufs with
  | nil => intro i hi; simp at hi
  | cons b bs ih =>
    intro i hi hm
    by_cases hb : rxMatch rx_id b
    · exact ⟨0, Nat.zero_le i, by simp [rxScan, hb],
        by simpa [List.getD_cons_zero] using hb⟩
    · cases i with
      | zero =>
        rw [List.getD_cons_zero] at hm
        exact absurd hm (by simpa using hb)
      | succ i' =>
        have hi' : i' < bs.length := by simpa using hi
        have hm' : rxMatch rx_id (bs.getD i' ⟨0, 0, false⟩) = true := by
          simpa [List.getD_cons_succ] using hm
        obtain ⟨k, hk, hscan, hkm⟩ := ih i' hi' hm'
        exact ⟨k + 1, by omega, by simp [rxScan, hb, hscan],
          by simpa [List.getD_cons_succ] using hkm⟩

/-- C6: dispatch respects registration order: if the descriptors at
positions `i < j` both mask-compare match the incoming 11-bit identifier,
the scan stops at an index at most `i`, the handler that is invoked (if
any) is that first match, and descriptor `j`'s handler is not invoked. -/
theorem c6_first_registered_descriptor_wins (bufs : List CO_CANrx)
    (frame : can_frame) (i j : Nat) (hij : i < j) (hj : j < bufs.length)
    (hdlc : frame.can_dlc < 256)
    (herr : frame.can_id &&& CAN_ERR_FLAG = 0)
    (hi : rxMatch (frame.can_id &&& CAN_SFF_MASK)
      (bufs.getD i ⟨0, 0, false⟩) = true)
    (_hjm : rxMatch (frame.can_id &&& CAN_SFF_MASK)
      (bufs.getD j ⟨0, 0, false⟩) = true) :
    ∃ k, k ≤ i ∧
      rxScan (frame.can_id &&& CAN_SFF_MASK) bufs = some k ∧
      rxMatch (frame.can_id &&& CAN_SFF_MASK)
        (bufs.getD k ⟨0, 0, false⟩) = true ∧
      (CO_CANrxWait bufs frame).2 ≠ some j ∧
      ((CO_CANrxWait bufs frame).2 = some k ∨
        (CO_CANrxWait bufs frame).2 = none) := by
  have hbound : i < bufs.length := lt_trans hij hj
  obtain ⟨k, hk, hscan, hkm⟩ := rxScan_first_match _ bufs i hbound hi
  have hdlceff := byte_and_eff_flag frame.can_dlc hdlc
  have hwait : (CO_CANrxWait bufs frame).2 =
      if (bufs.getD k ⟨0, 0, false⟩).hasFunct then some k else none := by
    simp [CO_CANrxWait, hdlceff, herr, hscan, apply_ite]
  refine ⟨k, hk, hscan, hkm, ?_, ?_⟩
  · rw [hwait]
    split
    · simp only [ne_eq, Option.some.injEq]
      omega
    · simp
  · rw [hwait]
    split
    · exact Or.inl rfl
    · exact Or.inr rfl

theorem c6_first_registered_descriptor_wins_witness :
    (CO_CANrxWait
      [CO_CANrxBufferInit 0x181 0x7FF false,
        CO_CANrxBufferInit 0x181 0x700 false] ⟨0x181, 8⟩).2 ≠ some 1 := by
  obtain ⟨k, _, _, _, hne, _⟩ := c6_first_registered_descriptor_wins
    [CO_CANrxBufferInit 0x181 0x7FF false,
      CO_CANrxBufferInit 0x181 0x700 false] ⟨0x181, 8⟩ 0 1
    (by decide) (by decide) (by decide) (by decide) (by decide) (by decide)
  exact hne

/-! ## Claims about the send path -/

/-- C7: a send request through the interface gate: busy while the
interface is in listen only (and the dwell time has not re-allowed the
send); once active, `CO_ERROR_TX_OVERFLOW` when the transport queue is
saturated and `CO_ERROR_NO` otherwise. -/
theorem c7_send_busy_overflow_ok (now : Timespec)
    (h : CO_CANinterfaceErrorhandler) (queueSaturated : Bool) :
    (h.listenOnly = true → ¬ h.timestamp.tv_sec + 5 < now.tv_sec →
      CO_CANsend_socketCAN now h queueSaturated = (h, .txBusy)) ∧
    (h.listenOnly = false → queueSaturated = true →
      (CO_CANsend_socketCAN now h queueSaturated).2 = .txOverflow) ∧
    (h.listenOnly = false → queueSaturated = false →
      (CO_CANsend_socketCAN now h queueSaturated).2 = .no) := by
  refine ⟨?_, ?_, ?_⟩
  · intro hlo hdwell
    simp [CO_CANsend_socketCAN, CO_CANerror_txMsg, hlo, hdwell]
  · intro hlo hq
    simp [CO_CANsend_socketCAN, CO_CANerror_txMsg, CO_CANsend, hlo, hq]
  · intro hlo hq
    simp [CO_CANsend_socketCAN, CO_CANerror_txMsg, CO_CANsend, hlo, hq]

theorem c7_send_busy_overflow_ok_witness :
    CO_CANsend_socketCAN ⟨3, 0⟩ ⟨true, 0, ⟨0, 0⟩⟩ false =
      (⟨true, 0, ⟨0, 0⟩⟩, .txBusy) ∧
    (CO_CANsend_socketCAN ⟨3, 0⟩ ⟨false, 0, ⟨0, 0⟩⟩ true).2 = .txOverflow ∧
    (CO_CANsend_socketCAN ⟨3, 0⟩ ⟨false, 0, ⟨0, 0⟩⟩ false).2 = .no :=
  ⟨(c7_send_busy_overflow_ok ⟨3, 0⟩ ⟨true, 0, ⟨0, 0⟩⟩ false).1 rfl
      (by decide),
    (c7_send_busy_overflow_ok ⟨3, 0⟩ ⟨false, 0, ⟨0, 0⟩⟩ true).2.1 rfl rfl,
    (c7_send_busy_overflow_ok ⟨3, 0⟩ ⟨false, 0, ⟨0, 0⟩⟩ false).2.2 rfl rfl⟩

/-! ## Claims about the parameter store callbacks -/

/-- C8: a write to a signature-gated save subindex of the
store-parameters entry (0x1010, subindexes 1/3/5/6/7) with a wrong
signature is rejected with `CO_SDO_AB_DATA_TRANSF`, performs no storage
save, restores the previously stored word into the write target and
leaves the object-dictionary state unchanged — in both revisions of the
callback. -/
theorem c8_wrong_signature_rejected (saveOk : Canopen_storage → Bool)
    (od : ODState) (subIndex : Nat) (data storedData : Nat)
    (hsub : subIndex = 1 ∨ subIndex = 3 ∨ subIndex = 5 ∨ subIndex = 6 ∨
      subIndex = 7)
    (hsig : data ≠ 0x65766173) :
    store_parameters_callbackV0 saveOk od false subIndex data storedData =
      ⟨.dataTransf, storedData, [], [], od⟩ ∧
    store_parameters_callbackV1 saveOk od false subIndex data storedData =
      ⟨.dataTransf, storedData, [], [], od⟩ := by
  rcases hsub with h | h | h | h | h <;> subst h <;>
    constructor <;>
    simp [store_parameters_callbackV0, store_parameters_callbackV1, hsig]

theorem c8_wrong_signature_rejected_witness :
    store_parameters_callbackV0 (fun _ => true) ⟨false, 0, 0⟩ false 3
        0x64616F6C 42 = ⟨.dataTransf, 42, [], [], ⟨false, 0, 0⟩⟩ ∧
    store_parameters_callbackV1 (fun _ => true) ⟨false, 0, 0⟩ false 3
        0x64616F6C 42 = ⟨.dataTransf, 42, [], [], ⟨false, 0, 0⟩⟩ :=
  c8_wrong_signature_rejected (fun _ => true) ⟨false, 0, 0⟩ 3
    0x64616F6C 42 (by decide) (by decide)

/-- C9 (revision `part_000`): the serial number is one-shot.  While
`OD_serialNumber.valid` is false, a store through 0x1010 subindex 5 with
the correct signature succeeds and sets the flag (and truncates the
serial into the identity object); once the flag is true, a write to the
serial value (0x5000 subindex 2) is rejected `CO_SDO_AB_READONLY` with
the original bytes reinstated, and a further store through 0x1010
subindex 5 — whatever the signature — is rejected with no save and the
stored word restored. -/
theorem c9_serial_number_one_shot (saveOk : Canopen_storage → Bool)
    (od od2 : ODState) (sig d2 s2 storedData : Nat)
    (hok : saveOk .SERIAL = true) :
    (od.serialValid = false →
      store_parameters_callbackV0 saveOk od false 5 0x65766173 storedData =
        ⟨.none, storedData, [.SERIAL], [],
          ⟨true, od.serialNumberSerial,
            od.serialNumberSerial % 100000000⟩⟩) ∧
    (od2.serialValid = true →
      serial_number_callbackV0 od2 false 2 d2 s2 =
        ⟨.readonly, s2, [], [], od2⟩) ∧
    (od2.serialValid = true →
      store_parameters_callbackV0 saveOk od2 false 5 sig storedData =
        ⟨.dataTransf, storedData, [], [], od2⟩) := by
  refine ⟨?_, ?_, ?_⟩
  · intro hvalid
    simp [store_parameters_callbackV0, storeSaveStep, hvalid, hok]
  · intro hvalid
    simp [serial_number_callbackV0, hvalid]
  · intro hvalid
    by_cases hsig : sig = 0x65766173 <;>
      simp [store_parameters_callbackV0, hvalid, hsig]

theorem c9_serial_number_one_shot_witness :
    store_parameters_callbackV0 (fun _ => true) ⟨false, 123456789, 0⟩
        false 5 0x65766173 9 =
      ⟨.none, 9, [.SERIAL], [], ⟨true, 123456789, 23456789⟩⟩ ∧
    serial_number_callbackV0 ⟨true, 123456789, 23456789⟩ false 2 77 55 =
      ⟨.readonly, 55, [], [], ⟨true, 123456789, 23456789⟩⟩ ∧
    store_parameters_callbackV0 (fun _ => true) ⟨true, 123456789, 23456789⟩
        false 5 0x65766173 9 =
      ⟨.dataTransf, 9, [], [], ⟨true, 123456789, 23456789⟩⟩ :=
  ⟨(c9_serial_number_one_shot (fun _ => true) ⟨false, 123456789, 0⟩
      ⟨true, 123456789, 23456789⟩ 0x65766173 77 55 9 rfl).1 rfl,
    (c9_serial_number_one_shot (fun _ => true) ⟨false, 123456789, 0⟩
      ⟨true, 123456789, 23456789⟩ 0x65766173 77 55 9 rfl).2.1 rfl,
    (c9_serial_number_one_shot (fun _ => true) ⟨false, 123456789, 0⟩
      ⟨true, 123456789, 23456789⟩ 0x65766173 77 55 9 rfl).2.2 rfl⟩

set_option maxHeartbeats 1600000 in
/-- C10: both revisions of the store-parameters and
restore-default-parameters write callbacks copy the previously stored
word back into the write target before any subindex or signature check,
so after every write invocation — including a successful one — the write
target holds the stored word, never the magic signature. -/
theorem c10_signature_never_persisted (saveOk : Canopen_storage → Bool)
    (od : ODState) (subIndex data storedData : Nat) :
    (store_parameters_callbackV0 saveOk od false subIndex data
      storedData).data = storedData ∧
    (store_parameters_callbackV1 saveOk od false subIndex data
      storedData).data = storedData ∧
    (restore_default_parameters_callbackV0 od false subIndex data
      storedData).data = storedData ∧
    (restore_default_parameters_callbackV1 od false subIndex data
      storedData).data = storedData := by
  refine ⟨?_, ?_, ?_, ?_⟩
  · rw [store_parameters_callbackV0]
    simp only [Bool.false_eq_true, if_false, storeSaveStep]
    repeat' split
    all_goals rfl
  · rw [store_parameters_callbackV1]
    simp only [Bool.false_eq_true, if_false, storeSaveStep]
    repeat' split
    all_goals rfl
  · rw [restore_default_parameters_callbackV0]
    simp only [Bool.false_eq_true, if_false]
    repeat' split
    all_goals rfl
  · rw [restore_default_parameters_callbackV1]
    simp only [Bool.false_eq_true, if_false]
    repeat' split
    all_goals rfl
